import Mathlib

/-!
# Access-Unlocked: verification of the facility store, search and OSM ingestion

Shallow embedding of the core of the `access-Unlocked` repository:

* `osmService.ts`  — `rateLimitedRequest`, `parseOSMElement`, `fetchOSMFacilities`,
  `importOSMFacilities` (rate-limited fetch, tag normalisation, import loop);
* `facilityService.ts` — `searchNearbyFacilities`, `createFacility` over the
  PostgreSQL/PostGIS schema of `scripts/init-db.sql`;
* `routes/facilities.ts` — the `GET /facilities/nearby` route handler;
* `config.ts` — the OSM rate-limit configuration.

JavaScript numbers are modelled as `ℚ`, timestamps (`Date.now()`) as `ℕ`
milliseconds.  Database behaviour (NUMERIC overflow, foreign keys, `NULL`
comparison, `ORDER BY` / `LIMIT` / `OFFSET`) is modelled explicitly where the
code relies on it; the `ORDER BY distance ASC` clause fixes no order between
rows at equal distance, so query results are characterised by a relation
rather than a function.
-/

namespace AccessUnlocked

/-! ## OSM elements and tags

`element.tags` is a string-keyed record; modelled as an association list,
first binding wins (JS object keys are unique anyway). -/

abbrev Tags := List (String × String)

/-- Lookup `tags.k` / `tags['k']`: `some v` when the tag is present, `none` when absent
(JS `undefined`). -/
def tagOf (tags : Tags) (k : String) : Option String :=
  (tags.find? (fun p => p.1 = k)).map (·.2)

/-- JS truthiness for an optional string: `undefined` and the empty string are
falsy, every other string is truthy.  Returns the value when truthy. -/
def truthy (o : Option String) : Option String :=
  match o with
  | some s => if s = "" then none else some s
  | none => none

/-- An Overpass element (`types.ts`): a node with coordinates and tags, or a
way (node list and tags). -/
inductive OSMElement
  | node (id : Nat) (lat : ℚ) (lon : ℚ) (tags : Tags)
  | way (id : Nat) (nodes : List Nat) (tags : Tags)
deriving DecidableEq, Repr

/-- The accessibility record built by `parseOSMElement` (lines 89–96 of
`osmService.ts`).  Every field is produced by a JS `===`/`||` expression, so
each is a definite boolean — the code has no way to leave a flag unset. -/
structure AccessibilityFeatures where
  wheelchairAccessible : Bool
  hasRamp : Bool
  hasElevator : Bool
  hasAccessibleToilet : Bool
  hasAccessibleParking : Bool
  hasAutomaticDoor : Bool
deriving DecidableEq, Repr

/-- The type `Omit<Facility, 'id' | 'createdAt' | 'updatedAt'>`: the candidate record
`parseOSMElement` returns and `createFacility` receives. -/
structure FacilityCandidate where
  name : String
  description : Option String
  facilityTypeId : String
  lat : ℚ
  lng : ℚ
  address : Option String
  accessibility : AccessibilityFeatures
  openingHours : Option String
  phone : Option String
  website : Option String
  verified : Bool
  dataQualityScore : Option ℚ
  dataSources : List String
  externalIds : List (String × String)
deriving DecidableEq, Repr

/-- JS `typeId.charAt(0).toUpperCase() + typeId.slice(1)` (all facility type ids
are plain ASCII). -/
def capitalizeFirst (s : String) : String :=
  (s.take 1).toUpper ++ s.drop 1

/-- The constant data-quality score `0.7` the importer attaches to OSM data,
written as an already-normalised rational (numerator `7`, denominator `10`)
so that concrete runs reduce definitionally. -/
def osmQualityScore : ℚ := ⟨7, 10, by norm_num, by norm_num⟩

theorem osmQualityScore_def : osmQualityScore = 7 / 10 := by
  rw [osmQualityScore, Rat.mk'_eq_divInt, Rat.divInt_eq_div]
  norm_num

/-- Function `parseOSMElement` (`osmService.ts` lines 63–129), translated clause by
clause.  Ways are skipped (`null`); for nodes the facility type is decided by
the first matching branch of the `if`/`else if` chain (default `'entrance'`),
the six accessibility booleans by the tag equations of lines 90–95, and
name/address are synthesised from the tags. -/
def parseOSMElement : OSMElement → Option FacilityCandidate
  | .way _ _ _ => none
  | .node id lat lon tags =>
    let facilityTypeId : String :=
      if tagOf tags "amenity" = some "toilets" ∨ tagOf tags "toilets:wheelchair" = some "yes" then
        "toilet"
      else if tagOf tags "amenity" = some "parking" ∨ tagOf tags "parking:disabled" = some "yes" then
        "parking"
      else if tagOf tags "highway" = some "elevator" ∨ tagOf tags "elevator" = some "yes" then
        "elevator"
      else if tagOf tags "ramp" = some "yes" then
        "ramp"
      else if (truthy (tagOf tags "entrance")).isSome then
        "entrance"
      else if tagOf tags "railway" = some "station" ∨ tagOf tags "public_transport" = some "station" then
        "station"
      else
        "entrance"
    let accessibility : AccessibilityFeatures :=
      { wheelchairAccessible :=
          (tagOf tags "wheelchair" == some "yes") || (tagOf tags "wheelchair" == some "limited")
        hasRamp := tagOf tags "ramp" == some "yes"
        hasElevator :=
          (tagOf tags "elevator" == some "yes") || (tagOf tags "highway" == some "elevator")
        hasAccessibleToilet := tagOf tags "toilets:wheelchair" == some "yes"
        hasAccessibleParking :=
          (tagOf tags "parking:disabled" == some "yes") ||
            (tagOf tags "parking:disabled" == some "designated")
        hasAutomaticDoor :=
          (tagOf tags "automatic_door" == some "yes") || (tagOf tags "door" == some "automatic") }
    let name : String :=
      match truthy (tagOf tags "name") with
      | some n => n
      | none =>
        match truthy (tagOf tags "description") with
        | some d => d
        | none =>
          capitalizeFirst facilityTypeId ++ " at " ++
            ((truthy (tagOf tags "addr:street")).getD "location")
    let addressParts : List String :=
      ((truthy (tagOf tags "addr:housenumber")).toList ++
        (truthy (tagOf tags "addr:street")).toList ++
        (truthy (tagOf tags "addr:city")).toList ++
        (truthy (tagOf tags "addr:postcode")).toList)
    some
      { name := name
        description :=
          match truthy (tagOf tags "wheelchair:description") with
          | some d => some d
          | none => tagOf tags "description"
        facilityTypeId := facilityTypeId
        lat := lat
        lng := lon
        address := if addressParts.isEmpty then none else some (String.intercalate ", " addressParts)
        accessibility := accessibility
        openingHours := truthy (tagOf tags "opening_hours")
        phone := tagOf tags "phone"
        website := tagOf tags "website"
        verified := false
        dataQualityScore := some osmQualityScore
        dataSources := ["openstreetmap"]
        externalIds := [("osm", "node/" ++ toString id)] }

/-! ## Concrete OSM elements used by the theorems below -/

/-- A node carrying no tags at all (in particular no `wheelchair` tag). -/
def noTagNode : OSMElement := .node 1 51 0 []

/-- A named node tagged `toilets:wheelchair=yes`. -/
def accessibleToiletNode : OSMElement :=
  .node 2 51 0 [("name", "A"), ("toilets:wheelchair", "yes")]

/-! ## C1: accessibility flags of the tag normaliser -/

/-- C1, counterexample.  The claim says a node with no `wheelchair` tag at all
yields `wheelchairAccessible = unset`, and that a flag is `false` only on an
explicit negative tag value.  In the code every accessibility field is a plain
JS boolean (`tags.wheelchair === 'yes' || tags.wheelchair === 'limited'`), so
the tagless node `noTagNode` parses to a candidate whose
`wheelchairAccessible` is the definite value `false` — there is no unset
state, and the `false` arises from mere absence, not from a negative value. -/
theorem c1_absent_tag_counterexample :
    (parseOSMElement noTagNode).map (fun c => c.accessibility.wheelchairAccessible) =
      some false := by
  decide

/-- C1, amended.  Every node parses successfully; a node tagged
`toilets:wheelchair=yes` is classified `toilet` with
`hasAccessibleToilet = true` (that part of the claim holds); the
`wheelchairAccessible` flag is `true` exactly on the affirmative tag values
`yes`/`limited`; but when the `wheelchair` tag is absent the flag is the
boolean `false` — absence is defaulted to `false`, not left unset. -/
theorem c1_tag_flags_amended (id : Nat) (lat lon : ℚ) (tags : Tags) :
    ∃ c, parseOSMElement (.node id lat lon tags) = some c ∧
      (tagOf tags "toilets:wheelchair" = some "yes" →
        c.facilityTypeId = "toilet" ∧ c.accessibility.hasAccessibleToilet = true) ∧
      (c.accessibility.wheelchairAccessible = true ↔
        tagOf tags "wheelchair" = some "yes" ∨ tagOf tags "wheelchair" = some "limited") ∧
      (tagOf tags "wheelchair" = none → c.accessibility.wheelchairAccessible = false) := by
  refine ⟨_, rfl, ?_, ?_, ?_⟩
  · intro h
    constructor
    · simp [h]
    · simp [h]
  · simp
  · intro h
    simp [h]

/-- C1, witness for the amended theorem at the concrete node
`accessibleToiletNode`. -/
theorem c1_tag_flags_amended_witness :
    (parseOSMElement accessibleToiletNode).map
        (fun c => (c.facilityTypeId, c.accessibility.hasAccessibleToilet,
          c.accessibility.wheelchairAccessible)) =
      some ("toilet", true, false) := by
  obtain ⟨c, hc, htoilet, _, habsent⟩ :=
    c1_tag_flags_amended 2 51 0 [("name", "A"), ("toilets:wheelchair", "yes")]
  obtain ⟨h1, h2⟩ := htoilet (by decide)
  have h3 := habsent (by decide)
  show (parseOSMElement (.node 2 51 0 [("name", "A"), ("toilets:wheelchair", "yes")])).map _ = _
  rw [hc]
  simp [h1, h2, h3]

/-! ## The facilities table (`scripts/init-db.sql`) and `createFacility`

A row of the `facilities` table.  `id` (a `uuid` in the schema) is modelled as
a sequence number; the `location GEOGRAPHY` column is determined by `lat`/`lng`
and is only ever consumed through the abstract per-row distance function of the
search model, so it carries no separate field.  The six accessibility columns
and `deleted_at` are nullable. -/
structure FacilityRow where
  id : ℕ
  name : String
  description : Option String
  facilityTypeId : String
  lat : ℚ
  lng : ℚ
  address : Option String
  wheelchairAccessible : Option Bool
  hasRamp : Option Bool
  hasElevator : Option Bool
  hasAccessibleToilet : Option Bool
  hasAccessibleParking : Option Bool
  hasAutomaticDoor : Option Bool
  openingHours : Option String
  phone : Option String
  website : Option String
  verified : Bool
  dataQualityScore : Option ℚ
  dataSources : List String
  externalIds : List (String × String)
  deletedAt : Option ℕ
deriving DecidableEq, Repr

/-- The database: the `facilities` table plus the id generator. -/
structure Store where
  nextId : ℕ
  rows : List FacilityRow
deriving DecidableEq, Repr

def emptyStore : Store := { nextId := 1, rows := [] }

/-- The fixed `facility_types` catalog seeded by `init-db.sql` (lines 22–29);
`facilities.facility_type_id` references it. -/
def facilityTypeCatalog : List String :=
  ["toilet", "parking", "ramp", "elevator", "entrance", "station"]

/-- Errors the `INSERT` of `createFacility` can raise in PostgreSQL. -/
inductive DBError
  | numericFieldOverflow
  | valueTooLong
  | foreignKeyViolation
deriving DecidableEq, Repr

/-- A value fits a `NUMERIC(p, s)` column with `intDigits = p - s` digits
before the decimal point when its absolute value is below `10 ^ intDigits`
(rounding to `s` places is ignored; every concrete value below is exact). -/
def numericFits (intDigits : ℕ) (x : ℚ) : Prop := |x| < 10 ^ intDigits

instance (d : ℕ) (x : ℚ) : Decidable (numericFits d x) := by
  unfold numericFits; infer_instance

/-- The first error PostgreSQL raises for the `INSERT` of `createFacility`
(`facilityService.ts` lines 212–268), or `none` when the insert succeeds.
Value-coercion errors (string too long for `VARCHAR`, `numeric field overflow`
for `NUMERIC`) are checked in column order, then the `facility_type_id`
foreign key against the catalog.  The `location GEOGRAPHY` column never fails:
PostGIS coerces out-of-range coordinates into `[-180 -90, 180 90]` with a
NOTICE instead of raising an error, so no range check appears here. -/
def insertError (c : FacilityCandidate) : Option DBError :=
  if 255 < c.name.length then some .valueTooLong
  else if ¬ numericFits 2 c.lat then some .numericFieldOverflow
  else if ¬ numericFits 3 c.lng then some .numericFieldOverflow
  else if (c.phone.map String.length).getD 0 > 50 then some .valueTooLong
  else if !(c.dataQualityScore.all fun q => decide (numericFits 1 q)) then some .numericFieldOverflow
  else if c.facilityTypeId ∉ facilityTypeCatalog then some .foreignKeyViolation
  else none

/-- The row the `INSERT` of `createFacility` stores for a candidate: the
accessibility booleans are stored non-null and `deleted_at` is null. -/
def rowOfCandidate (id : ℕ) (c : FacilityCandidate) : FacilityRow :=
  { id := id
    name := c.name
    description := c.description
    facilityTypeId := c.facilityTypeId
    lat := c.lat
    lng := c.lng
    address := c.address
    wheelchairAccessible := some c.accessibility.wheelchairAccessible
    hasRamp := some c.accessibility.hasRamp
    hasElevator := some c.accessibility.hasElevator
    hasAccessibleToilet := some c.accessibility.hasAccessibleToilet
    hasAccessibleParking := some c.accessibility.hasAccessibleParking
    hasAutomaticDoor := some c.accessibility.hasAutomaticDoor
    openingHours := c.openingHours
    phone := c.phone
    website := c.website
    verified := c.verified
    dataQualityScore := c.dataQualityScore
    dataSources := c.dataSources
    externalIds := c.externalIds
    deletedAt := none }

/-- Function `createFacility` (`facilityService.ts` lines 212–268): one `INSERT …
RETURNING id`.  On success the new row is appended and the fresh id
returned. -/
def createFacility (db : Store) (c : FacilityCandidate) : Except DBError (Store × ℕ) :=
  match insertError c with
  | some e => .error e
  | none =>
    .ok ({ nextId := db.nextId + 1, rows := db.rows ++ [rowOfCandidate db.nextId c] }, db.nextId)

/-- A benign candidate with the given type and coordinates (short name, no
phone, quality score 0.7 — the values the OSM importer always supplies). -/
def mkCandidate (t : String) (la ln : ℚ) : FacilityCandidate :=
  { name := "X"
    description := none
    facilityTypeId := t
    lat := la
    lng := ln
    address := none
    accessibility :=
      { wheelchairAccessible := false, hasRamp := false, hasElevator := false
        hasAccessibleToilet := false, hasAccessibleParking := false, hasAutomaticDoor := false }
    openingHours := none
    phone := none
    website := none
    verified := false
    dataQualityScore := some osmQualityScore
    dataSources := ["openstreetmap"]
    externalIds := [("osm", "node/1")] }

/-! ## C8: `createFacility` validation -/

/-- C8, counterexample.  The claim says latitude `90.0001` is rejected with a
`ValidationError`.  `createFacility` performs no validation of its own: the
only checks are the ones PostgreSQL applies to the `INSERT`.  `90.0001` fits
the `NUMERIC(10, 8)` `lat` column (two integer digits) and the geography cast
coerces rather than errors, so the insert succeeds. -/
theorem c8_out_of_range_accepted_counterexample :
    (createFacility emptyStore (mkCandidate "toilet" (900001 / 10000) 0)).isOk = true := by
  have hname : ¬ (255 < ("X" : String).length) := by decide
  have hq : ¬ ((10 : ℚ) ≤ |osmQualityScore|) := by
    rw [osmQualityScore_def, abs_of_nonneg (by norm_num : (0 : ℚ) ≤ 7 / 10)]; norm_num
  have hla : ¬ (((10 : ℚ) ^ 2) ≤ |(900001 : ℚ) / 10000|) := by
    rw [abs_of_nonneg (by norm_num : (0 : ℚ) ≤ 900001 / 10000)]; norm_num
  have hln : ¬ (((10 : ℚ) ^ 3) ≤ |(0 : ℚ)|) := by norm_num
  simp [createFacility, insertError, mkCandidate, numericFits, facilityTypeCatalog,
    Except.isOk, Except.toBool, hname, hq, hla, hln]

/-- C8, amended.  `createFacility` persists a valid candidate and returns its
new id (first conjunct, general in store, type and coordinates); the boundary
coordinates `(90, 180)` and `(-90, -180)` are accepted; but rejection happens
only through the database — a latitude such as `999` overflows the
`NUMERIC(10, 8)` column, and an uncatalogued facility type violates the
foreign key.  Out-of-range coordinates that still fit the numeric columns
(such as `90.0001`) are not rejected. -/
theorem c8_create_amended :
    (∀ (db : Store) (t : String) (la ln : ℚ), t ∈ facilityTypeCatalog →
      numericFits 2 la → numericFits 3 ln →
      ∃ s, createFacility db (mkCandidate t la ln) = .ok (s, db.nextId) ∧
        s.rows.length = db.rows.length + 1) ∧
    (createFacility emptyStore (mkCandidate "toilet" 90 180)).isOk = true ∧
    (createFacility emptyStore (mkCandidate "toilet" (-90) (-180))).isOk = true ∧
    createFacility emptyStore (mkCandidate "toilet" 999 0) = .error .numericFieldOverflow ∧
    createFacility emptyStore (mkCandidate "pub" 0 0) = .error .foreignKeyViolation := by
  have hname : ¬ (255 < ("X" : String).length) := by decide
  have hq : ¬ ((10 : ℚ) ≤ |osmQualityScore|) := by
    rw [osmQualityScore_def, abs_of_nonneg (by norm_num : (0 : ℚ) ≤ 7 / 10)]; norm_num
  refine ⟨?_, ?_, ?_, ?_, ?_⟩
  · intro db t la ln ht hla hln
    have hq7 : numericFits 1 osmQualityScore := by
      rw [numericFits, osmQualityScore_def,
        abs_of_nonneg (by norm_num : (0 : ℚ) ≤ 7 / 10)]; norm_num
    have herr : insertError (mkCandidate t la ln) = none := by
      simp [insertError, mkCandidate, ht, hla, hln, hq7, hname]
    refine ⟨{ nextId := db.nextId + 1,
              rows := db.rows ++ [rowOfCandidate db.nextId (mkCandidate t la ln)] }, ?_, ?_⟩
    · simp [createFacility, herr]
    · simp
  · simp [createFacility, insertError, mkCandidate, numericFits, facilityTypeCatalog,
      Except.isOk, Except.toBool, hname, hq, abs_le, abs_of_nonneg, abs_of_nonpos]
    norm_num
  · simp [createFacility, insertError, mkCandidate, numericFits, facilityTypeCatalog,
      Except.isOk, Except.toBool, hname, hq, abs_le, abs_of_nonneg, abs_of_nonpos]
    norm_num
  · simp [createFacility, insertError, mkCandidate, numericFits, facilityTypeCatalog,
      hname, hq]
    norm_num
  · have hpub : ("pub" : String) ∉ facilityTypeCatalog := by decide
    simp [createFacility, insertError, mkCandidate, numericFits, hname, hq, hpub]

/-- C8, witness for the amended theorem: a concrete in-range create succeeds
and appends one row. -/
theorem c8_create_amended_witness :
    (createFacility emptyStore (mkCandidate "ramp" (17 / 2) (3 / 4))).isOk = true := by
  obtain ⟨s, hs, _⟩ :=
    c8_create_amended.1 emptyStore "ramp" (17 / 2) (3 / 4) (by decide)
      (by norm_num [numericFits, abs_lt]) (by norm_num [numericFits, abs_lt])
  rw [hs]
  rfl

/-! ## The import loop (`importOSMFacilities`, `osmService.ts` lines 151–174)

The fetched elements are taken as an argument (the fetch itself is modelled
separately for the retry analysis).  Each element is parsed; parse failures
(`null`, i.e. ways) are silently skipped; each parsed candidate goes straight
to `createFacility` — the code performs no external-id lookup before the
insert — and a create failure is caught, logged and the loop continues.  The
function returns the final store and the only output of the run: the
`importedCount` number. -/
def importOSMFacilities (db : Store) : List OSMElement → Store × ℕ
  | [] => (db, 0)
  | e :: es =>
    match parseOSMElement e with
    | none => importOSMFacilities db es
    | some c =>
      match createFacility db c with
      | .ok (db2, _) =>
        let r := importOSMFacilities db2 es
        (r.1, r.2 + 1)
      | .error _ => importOSMFacilities db es

/-- An element counts towards `importedCount` iff it parses to a candidate
whose insert succeeds; this depends on the element alone, never on the store
(the schema has no uniqueness constraint the insert could trip on). -/
def elementImports (e : OSMElement) : Bool :=
  match parseOSMElement e with
  | some c => (insertError c).isNone
  | none => false

/-- Number of non-tombstoned rows carrying the external id `(src, eid)`. -/
def liveExternalIdCount (db : Store) (src eid : String) : ℕ :=
  (db.rows.filter (fun r => r.externalIds.contains (src, eid) && r.deletedAt == none)).length

/-- Number of elements of a batch that parse but whose create fails — the
`failed` count the spec expects a run to report. -/
def importFailedCount (es : List OSMElement) : ℕ :=
  es.countP (fun e =>
    match parseOSMElement e with
    | some c => (insertError c).isSome
    | none => false)

/-- The imported count of a run is the number of elements that parse and whose
insert succeeds, independent of the starting store; and the store grows by
exactly that many rows. -/
theorem importOSMFacilities_spec (db : Store) (es : List OSMElement) :
    (importOSMFacilities db es).2 = es.countP elementImports ∧
      (importOSMFacilities db es).1.rows.length = db.rows.length + es.countP elementImports := by
  induction es generalizing db with
  | nil => simp [importOSMFacilities]
  | cons e es ih =>
    cases hp : parseOSMElement e with
    | none =>
      simp [importOSMFacilities, hp, List.countP_cons, elementImports, ih db]
    | some c =>
      cases hi : insertError c with
      | none =>
        have hcnt : elementImports e = true := by simp [elementImports, hp, hi]
        simp [importOSMFacilities, hp, createFacility, hi, List.countP_cons, hcnt, ih]
        omega
      | some err =>
        have hcnt : elementImports e = false := by simp [elementImports, hp, hi]
        simp [importOSMFacilities, hp, createFacility, hi, List.countP_cons, hcnt, ih db]

/-- A valid toilet node with its own OSM id (used to build batches). -/
def toiletNode (i : ℕ) : OSMElement :=
  .node i 51 0 [("name", "T"), ("amenity", "toilets"), ("toilets:wheelchair", "yes")]

/-- A node whose latitude `999` parses fine but overflows the `NUMERIC(10, 8)`
`lat` column, so its create fails. -/
def badLatitudeNode : OSMElement := .node 15 999 0 [("name", "B"), ("amenity", "toilets")]

/-- The 5-element batch of the spec scenario: four valid elements and one
malformed latitude. -/
def fiveElementBatch : List OSMElement :=
  [toiletNode 11, toiletNode 12, badLatitudeNode, toiletNode 13, toiletNode 14]

/-! ## C2: idempotence / deduplication of the import -/

/-- C2, counterexample.  The claim says a second run over the identical
element set reports `imported = 0` with every element dropped as a duplicate,
and that no two non-tombstoned facilities ever share a (source, external id)
pair.  `importOSMFacilities` performs no `findByExternalId` lookup (the code
comment even concedes it), the schema has no uniqueness constraint on
`external_ids`, so the second run over `[accessibleToiletNode]` imports the
element again (`imported = 1`, not `0`) and the store ends with two live rows
sharing the external id `("osm", "node/2")`. -/
theorem c2_reimport_creates_duplicates_counterexample :
    (importOSMFacilities (importOSMFacilities emptyStore [accessibleToiletNode]).1
        [accessibleToiletNode]).2 = 1 ∧
      liveExternalIdCount
        (importOSMFacilities (importOSMFacilities emptyStore [accessibleToiletNode]).1
          [accessibleToiletNode]).1 "osm" "node/2" = 2 := by
  constructor
  · decide
  · decide

/-- C2, amended.  No dedup exists: the imported count of a run depends only on
the element list (never on what the store already contains), so a second run
over the identical set re-imports exactly as many elements as the first, and
each run grows the store by that many rows — duplicate facilities accumulate
instead of being skipped. -/
theorem c2_reimport_amended (db : Store) (es : List OSMElement) :
    (importOSMFacilities (importOSMFacilities db es).1 es).2 =
        (importOSMFacilities db es).2 ∧
      (importOSMFacilities (importOSMFacilities db es).1 es).1.rows.length =
        db.rows.length + 2 * (importOSMFacilities db es).2 := by
  obtain ⟨h1, h2⟩ := importOSMFacilities_spec db es
  obtain ⟨h1', h2'⟩ := importOSMFacilities_spec (importOSMFacilities db es).1 es
  refine ⟨by rw [h1, h1'], ?_⟩
  rw [h2', h2, h1]
  ring

/-- C2, witness: the amended theorem instantiated at the one-element re-run. -/
theorem c2_reimport_amended_witness :
    (importOSMFacilities (importOSMFacilities emptyStore [accessibleToiletNode]).1
          [accessibleToiletNode]).2 =
        (importOSMFacilities emptyStore [accessibleToiletNode]).2 ∧
      (importOSMFacilities (importOSMFacilities emptyStore [accessibleToiletNode]).1
            [accessibleToiletNode]).1.rows.length =
        emptyStore.rows.length +
          2 * (importOSMFacilities emptyStore [accessibleToiletNode]).2 :=
  c2_reimport_amended emptyStore [accessibleToiletNode]

/-! ## C4: partial-failure behaviour of a batch -/

/-- C4, counterexample.  The claim says the run's result reports a
`{ totalFetched, imported, skipped, failed }` summary with `failed = 1`.  The
run's entire result is the single `importedCount` number: the one-element
batch and the two-element batch with an extra failing element produce the very
same result, while their failed counts differ — no `failed` (nor `skipped` or
`totalFetched`) component can be recovered from what the code returns. -/
theorem c4_no_failure_summary_counterexample :
    (importOSMFacilities emptyStore [toiletNode 21]).2 =
        (importOSMFacilities emptyStore [toiletNode 21, badLatitudeNode]).2 ∧
      importFailedCount [toiletNode 21] = 0 ∧
      importFailedCount [toiletNode 21, badLatitudeNode] = 1 := by
  refine ⟨?_, ?_, ?_⟩ <;> decide

/-- C4, amended.  A single bad record never aborts the batch: the imported
count is exactly the number of elements that parse and whose create succeeds
(general part), and for the spec's 5-element scenario with one
latitude-999 element the run yields `imported = 4` with the four valid
facilities stored — but only that number is reported, not a
`{ totalFetched, imported, skipped, failed }` summary. -/
theorem c4_batch_continues_amended :
    (∀ (db : Store) (es : List OSMElement),
      (importOSMFacilities db es).2 = es.countP elementImports) ∧
      (importOSMFacilities emptyStore fiveElementBatch).2 = 4 ∧
      (importOSMFacilities emptyStore fiveElementBatch).1.rows.length = 4 ∧
      importFailedCount fiveElementBatch = 1 := by
  refine ⟨fun db es => (importOSMFacilities_spec db es).1, by decide, by decide, by decide⟩

/-- C4, witness: the count formula of the amended theorem instantiated at a
one-element batch. -/
theorem c4_batch_continues_amended_witness :
    (importOSMFacilities emptyStore [noTagNode]).2 = [noTagNode].countP elementImports :=
  c4_batch_continues_amended.1 emptyStore [noTagNode]

/-! ## C5: fetch transport failures (`fetchOSMFacilities`, lines 134–146)

The HTTP transport is a parameter mapping the attempt number to the outcome
that attempt would produce (`axios.post` inside `rateLimitedRequest`).
`fetchOSMFacilities` makes exactly one `rateLimitedRequest` call — attempt
`0` — and its `catch` block immediately rethrows the error wrapped in a new
message.  No loop, counter or backoff appears anywhere in the code. -/

/-- The element list of an Overpass response (`OSMResponse.elements`). -/
structure OSMResponse where
  elements : List OSMElement
deriving DecidableEq, Repr

def fetchOSMFacilities (transport : ℕ → Except String OSMResponse) :
    Except String OSMResponse :=
  match transport 0 with
  | .ok d => .ok d
  | .error msg => .error ("Failed to fetch OSM data: " ++ msg)

/-- A transport that fails on the first attempt and would succeed on any
retry. -/
def failOnceTransport : ℕ → Except String OSMResponse :=
  fun n => if n = 0 then .error "timeout of 30000ms exceeded" else .ok ⟨[]⟩

/-- C5, counterexample.  The claim says a transport failure is retried with
exponential backoff up to an attempt ceiling, the error propagating only once
the ceiling is exhausted.  Against a transport that fails only on attempt 0
and would succeed on attempt 1, the fetch already propagates the (wrapped)
error: no second attempt is ever made. -/
theorem c5_no_retry_counterexample :
    fetchOSMFacilities failOnceTransport =
        .error "Failed to fetch OSM data: timeout of 30000ms exceeded" ∧
      failOnceTransport 1 = .ok ⟨[]⟩ := by
  constructor
  · rfl
  · rfl

/-- C5, amended.  There is no retry and no backoff: the fetch outcome is a
function of the first attempt alone — any two transports agreeing on attempt
`0` produce identical fetch results — and a first-attempt failure propagates
immediately, wrapped in the `Failed to fetch OSM data:` message. -/
theorem c5_single_attempt_amended (t₁ t₂ : ℕ → Except String OSMResponse)
    (h : t₁ 0 = t₂ 0) :
    fetchOSMFacilities t₁ = fetchOSMFacilities t₂ ∧
      (∀ msg, t₁ 0 = .error msg →
        fetchOSMFacilities t₁ = .error ("Failed to fetch OSM data: " ++ msg)) := by
  constructor
  · rw [fetchOSMFacilities, fetchOSMFacilities, h]
  · intro msg hmsg
    rw [fetchOSMFacilities, hmsg]

/-- C5, witness: the amended theorem applied to `failOnceTransport` and the
transport failing on every attempt, which agree on attempt 0. -/
theorem c5_single_attempt_amended_witness :
    fetchOSMFacilities failOnceTransport =
      fetchOSMFacilities (fun _ => .error "timeout of 30000ms exceeded") := by
  exact (c5_single_attempt_amended failOnceTransport
    (fun _ => .error "timeout of 30000ms exceeded") (by rfl)).1

/-! ## `searchNearbyFacilities` (`facilityService.ts` lines 7–108)

The SQL query filters `facilities` by `deleted_at IS NULL`,
`ST_DWithin(location, center, radius)` (geodesic distance ≤ radius, boundary
inclusive), optionally `facility_type_id = ANY(types)` (only when the type
list is present and non-empty) and optionally `wheelchair_accessible = b`
(SQL comparison: a `NULL` column is never equal to `b`), then orders by
`distance ASC` and applies `LIMIT`/`OFFSET`.

`ST_Distance(location, ST_MakePoint(lng, lat))` is abstracted as a per-row
distance function `d : FacilityRow → ℚ` for the query's centre — the same
expression feeds both the `ST_DWithin` predicate and the `ORDER BY`.  Since
`ORDER BY distance ASC` fixes no order between rows at equal distance, the
set of possible result lists is a relation: some distance-sorted permutation
of the matching rows, windowed by offset/limit.  PostgreSQL rejects a
negative `LIMIT`/`OFFSET` with an error, so a successful result also
certifies both are non-negative. -/

structure FacilitySearchParams where
  lat : ℚ
  lng : ℚ
  radius : Option ℚ
  facilityTypes : Option (List String)
  wheelchairAccessible : Option Bool
  limit : Option ℤ
  offset : Option ℤ
deriving Repr

/-- Default `radius = 1000` (1 km) of the destructuring at lines 10–18. -/
def effRadius (p : FacilitySearchParams) : ℚ := p.radius.getD 1000

/-- Default `limit = 20`. -/
def effLimit (p : FacilitySearchParams) : ℤ := p.limit.getD 20

/-- Default `offset = 0`. -/
def effOffset (p : FacilitySearchParams) : ℤ := p.offset.getD 0

/-- The `WHERE` clause applied to one row. -/
def rowMatches (d : FacilityRow → ℚ) (p : FacilitySearchParams) (r : FacilityRow) : Bool :=
  (r.deletedAt == none) &&
    decide (d r ≤ effRadius p) &&
    (match p.facilityTypes with
     | some ts => if ts.isEmpty then true else ts.contains r.facilityTypeId
     | none => true) &&
    (match p.wheelchairAccessible with
     | some b => r.wheelchairAccessible == some b
     | none => true)

/-- The multiset of rows passing the `WHERE` clause (in table order). -/
def matchingRows (d : FacilityRow → ℚ) (db : Store) (p : FacilitySearchParams) :
    List FacilityRow :=
  db.rows.filter (rowMatches d p)

/-- Holds when `res` is a possible result of the query: a distance-sorted permutation of
the matching rows, windowed by the (non-negative) offset and limit. -/
def IsSearchResult (d : FacilityRow → ℚ) (db : Store) (p : FacilitySearchParams)
    (res : List FacilityRow) : Prop :=
  0 ≤ effLimit p ∧ 0 ≤ effOffset p ∧
    ∃ full : List FacilityRow, full.Perm (matchingRows d db p) ∧
      full.Pairwise (fun a b => d a ≤ d b) ∧
      res = (full.drop (effOffset p).toNat).take (effLimit p).toNat

/-- A live facility row with benign fields, specialised below. -/
def baseRow : FacilityRow :=
  { id := 0
    name := "F"
    description := none
    facilityTypeId := "toilet"
    lat := 51
    lng := 0
    address := none
    wheelchairAccessible := none
    hasRamp := none
    hasElevator := none
    hasAccessibleToilet := none
    hasAccessibleParking := none
    hasAutomaticDoor := none
    openingHours := none
    phone := none
    website := none
    verified := false
    dataQualityScore := none
    dataSources := []
    externalIds := []
    deletedAt := none }

def rowA : FacilityRow := { baseRow with id := 1 }

def rowB : FacilityRow := { baseRow with id := 2 }

/-- All rows of `dbAB` sit at the query centre. -/
def dZero : FacilityRow → ℚ := fun _ => 0

def dbAB : Store := { nextId := 3, rows := [rowA, rowB] }

/-- Defaulted search parameters at centre `(51, 0)`. -/
def pDefault : FacilitySearchParams :=
  { lat := 51, lng := 0, radius := some 1000, facilityTypes := none,
    wheelchairAccessible := none, limit := none, offset := none }

def pLimit1 : FacilitySearchParams := { pDefault with limit := some 1 }

/-! ## C3: membership in the nearby-search result -/

/-- C3, counterexample.  The claim states membership is an iff: every valid,
in-radius, filter-satisfying, non-tombstoned facility appears in the result
set.  The query has a `LIMIT` (default 20): with `limit = 1` over a store of
two matching facilities, `[rowA]` is a valid query result, yet `rowB` matches
every condition of the claim and is absent. -/
theorem c3_limit_truncates_counterexample :
    IsSearchResult dZero dbAB pLimit1 [rowA] ∧
      rowMatches dZero pLimit1 rowB = true ∧
      rowB ∉ ([rowA] : List FacilityRow) := by
  refine ⟨⟨by decide, by decide, [rowA, rowB], ?_, by decide, by decide⟩, by decide, by decide⟩
  have h : matchingRows dZero dbAB pLimit1 = [rowA, rowB] := by decide
  rw [h]

/-- C3, amended.  Tombstone exclusion is unconditional: a soft-deleted row is
never returned by any query (first conjunct).  The claimed membership iff
holds whenever the result window is not truncating — `offset = 0` and at most
`limit` rows match: then `F` appears in the result exactly when `F` is a
stored row that is not tombstoned, within the radius (boundary inclusive) and
passes the type/wheelchair filters (a missing filter imposing no
restriction). -/
theorem c3_membership_amended (d : FacilityRow → ℚ) (db : Store)
    (p : FacilitySearchParams) (res : List FacilityRow)
    (hres : IsSearchResult d db p res) :
    (∀ F ∈ res, F.deletedAt = none) ∧
      (effOffset p = 0 → (matchingRows d db p).length ≤ (effLimit p).toNat →
        ∀ F, F ∈ res ↔ F ∈ db.rows ∧ rowMatches d p F = true) := by
  obtain ⟨-, -, full, hperm, hsort, heq⟩ := hres
  have hwindow : ∀ F ∈ res, F ∈ matchingRows d db p := by
    intro F hF
    rw [heq] at hF
    exact hperm.mem_iff.1
      (((List.take_sublist _ _).trans (List.drop_sublist _ _)).mem hF)
  constructor
  · intro F hF
    have hm := hwindow F hF
    rw [matchingRows, List.mem_filter] at hm
    have := hm.2
    rw [rowMatches] at this
    simp only [Bool.and_eq_true, beq_iff_eq] at this
    exact this.1.1.1
  · intro hoff hlen F
    have hfull : res = full := by
      rw [heq, hoff]
      simp only [Int.toNat_zero, List.drop_zero]
      exact List.take_of_length_le (hperm.length_eq.symm ▸ hlen)
    rw [hfull, hperm.mem_iff, matchingRows, List.mem_filter]

/-- C3, witness for the amended theorem: with default limit/offset over the
two-row store, membership coincides with the `WHERE` conditions. -/
theorem c3_membership_amended_witness :
    rowB ∈ ([rowA, rowB] : List FacilityRow) ∧ rowB.deletedAt = none := by
  have hres : IsSearchResult dZero dbAB pDefault [rowA, rowB] := by
    refine ⟨by decide, by decide, [rowA, rowB], ?_, by decide, by decide⟩
    have h : matchingRows dZero dbAB pDefault = [rowA, rowB] := by decide
    rw [h]
  obtain ⟨hdel, hmem⟩ := c3_membership_amended dZero dbAB pDefault [rowA, rowB] hres
  refine ⟨(hmem (by decide) (by decide) rowB).2 ⟨by decide, by decide⟩, ?_⟩
  exact hdel rowB ((hmem (by decide) (by decide) rowB).2 ⟨by decide, by decide⟩)

/-! ## C7: ordering of the nearby-search result -/

/-- C7, counterexample.  The claim says equal-distance results are ordered
deterministically by facility id.  The SQL orders by `distance ASC` alone —
no id tie-break appears — so over two rows at the same distance the list
`[rowB, rowA]`, with ids descending, is a valid query result. -/
theorem c7_no_id_tiebreak_counterexample :
    IsSearchResult dZero dbAB pDefault [rowB, rowA] ∧
      dZero rowB = dZero rowA ∧ rowA.id < rowB.id := by
  refine ⟨⟨by decide, by decide, [rowB, rowA], ?_, by decide, by decide⟩, by decide, by decide⟩
  have h : matchingRows dZero dbAB pDefault = [rowA, rowB] := by decide
  rw [h]
  decide

/-- C7, amended.  The monotonicity half of the claim holds: every valid query
result is pairwise non-decreasing in distance from the centre (the window of
a sorted list is sorted).  Ties carry no id-order guarantee. -/
theorem c7_distance_sorted_amended (d : FacilityRow → ℚ) (db : Store)
    (p : FacilitySearchParams) (res : List FacilityRow)
    (hres : IsSearchResult d db p res) :
    res.Pairwise (fun a b => d a ≤ d b) := by
  obtain ⟨-, -, full, -, hsort, heq⟩ := hres
  rw [heq]
  exact hsort.sublist ((List.take_sublist _ _).trans (List.drop_sublist _ _))

/-- C7, witness: the amended theorem applied to a concrete valid result. -/
theorem c7_distance_sorted_amended_witness :
    ([rowB, rowA] : List FacilityRow).Pairwise (fun a b => dZero a ≤ dZero b) := by
  refine c7_distance_sorted_amended dZero dbAB pDefault [rowB, rowA]
    ⟨by decide, by decide, [rowB, rowA], ?_, by decide, by decide⟩
  have h : matchingRows dZero dbAB pDefault = [rowA, rowB] := by decide
  rw [h]
  decide

/-! ## C10: a wheelchair filter excludes rows with unknown status -/

/-- C10, confirmed.  When a `wheelchairAccessible` filter value `b` is
supplied, the SQL condition `wheelchair_accessible = b` is never true of a
`NULL` column, so every returned facility carries exactly the stored value
`some b` — in particular never the unknown (`NULL`) status, for `b = false`
just as for `b = true`. -/
theorem c10_wheelchair_filter_excludes_unknown (d : FacilityRow → ℚ) (db : Store)
    (p : FacilitySearchParams) (res : List FacilityRow) (b : Bool) (F : FacilityRow)
    (hb : p.wheelchairAccessible = some b) (hres : IsSearchResult d db p res)
    (hF : F ∈ res) :
    F.wheelchairAccessible = some b ∧ F.wheelchairAccessible ≠ none := by
  obtain ⟨-, -, full, hperm, -, heq⟩ := hres
  rw [heq] at hF
  have hm : F ∈ matchingRows d db p :=
    hperm.mem_iff.1 (((List.take_sublist _ _).trans (List.drop_sublist _ _)).mem hF)
  rw [matchingRows, List.mem_filter, rowMatches, hb] at hm
  simp only [Bool.and_eq_true, beq_iff_eq] at hm
  have hv := hm.2.2
  exact ⟨hv, by rw [hv]; exact Option.noConfusion⟩

/-- A row explicitly marked not wheelchair accessible, and a row with unknown
(`NULL`) status, in one store. -/
def rowNotAccessible : FacilityRow := { baseRow with id := 5, wheelchairAccessible := some false }

def rowUnknownAccess : FacilityRow := { baseRow with id := 4 }

def dbWheel : Store := { nextId := 6, rows := [rowUnknownAccess, rowNotAccessible] }

/-- Search parameters filtering on `wheelchairAccessible = false`. -/
def pFalseFilter : FacilitySearchParams := { pDefault with wheelchairAccessible := some false }

/-- C10, witness: filtering `dbWheel` on `wheelchairAccessible = false`
returns `[rowNotAccessible]`; the theorem yields its stored `some false` and
non-`NULL` status. -/
theorem c10_wheelchair_filter_excludes_unknown_witness :
    rowNotAccessible.wheelchairAccessible = some false ∧
      rowNotAccessible.wheelchairAccessible ≠ none := by
  refine c10_wheelchair_filter_excludes_unknown dZero dbWheel pFalseFilter
    [rowNotAccessible] false rowNotAccessible (by decide) ?_ (by decide)
  refine ⟨by decide, by decide, [rowNotAccessible], ?_, by decide, by decide⟩
  have h : matchingRows dZero dbWheel pFalseFilter = [rowNotAccessible] := by decide
  rw [h]

/-! ## The `GET /facilities/nearby` route handler (`routes/facilities.ts`)

The query-string values arrive parsed: a present `lat`/`lng` is the
`parseFloat` outcome (a number or `NaN`), `radius`/`limit`/`offset` are the
`parseInt` values when present, `types` is the comma-split list, and
`wheelchairAccessible` is the raw string compared against `'true'`/`'false'`.
An absent parameter (or the falsy empty string) is `none`. -/

inductive JSNum
  | nan
  | num (q : ℚ)
deriving DecidableEq, Repr

structure SearchQuery where
  lat : Option JSNum
  lng : Option JSNum
  radius : Option ℤ
  types : Option (List String)
  wheelchairAccessible : Option String
  limit : Option ℤ
  offset : Option ℤ
deriving Repr

/-- The three reply shapes of the handler: a 400 with `(error, message)`, the
500 `Search failed` branch of the `catch`, and the 200 payload carrying the
facilities and their count. -/
inductive Reply
  | badRequest (error : String) (message : String)
  | serverError (error : String)
  | okReply (facilities : List FacilityRow) (count : ℕ)
deriving DecidableEq, Repr

/-- The `searchParams` object built at lines 59–67: every field is passed
through unchanged — no radius clamp or cap, no pagination check. -/
def routeSearchParams (q : SearchQuery) (a b : ℚ) : FacilitySearchParams :=
  { lat := a
    lng := b
    radius := q.radius.map (fun z => (z : ℚ))
    facilityTypes := q.types
    wheelchairAccessible :=
      match q.wheelchairAccessible with
      | some s => if s = "true" then some true else if s = "false" then some false else none
      | none => none
    limit := q.limit
    offset := q.offset }

/-- The database rejects the windowing values (negative `LIMIT`/`OFFSET`), in
which case the handler's `catch` produces the 500 reply. -/
def searchRejected (p : FacilitySearchParams) : Prop :=
  effLimit p < 0 ∨ effOffset p < 0

/-- The `/nearby` handler (lines 24–90): `r` is a possible reply for query
`q`.  Missing `lat`/`lng` and `NaN` give 400s, out-of-range `lat`/`lng` give
400s, and otherwise the store's (relational) query result is returned as a
success — the radius, type, wheelchair, limit and offset values are not
examined by the handler at all. -/
def NearbyReply (d : FacilityRow → ℚ) (db : Store) (q : SearchQuery) (r : Reply) : Prop :=
  match q.lat, q.lng with
  | some (.num a), some (.num b) =>
    if a < -90 ∨ 90 < a then
      r = .badRequest "Invalid latitude" "Latitude must be between -90 and 90"
    else if b < -180 ∨ 180 < b then
      r = .badRequest "Invalid longitude" "Longitude must be between -180 and 180"
    else
      (∃ res, IsSearchResult d db (routeSearchParams q a b) res ∧
          r = .okReply res res.length) ∨
        (searchRejected (routeSearchParams q a b) ∧ r = .serverError "Search failed")
  | some _, some _ => r = .badRequest "Invalid parameters" "lat and lng must be valid numbers"
  | _, _ => r = .badRequest "Missing required parameters" "lat and lng are required"

/-- Unfolding of `NearbyReply` on an in-range numeric centre. -/
theorem NearbyReply_in_range (d : FacilityRow → ℚ) (db : Store) (q : SearchQuery)
    (a b : ℚ) (r : Reply) (hla : q.lat = some (.num a)) (hlg : q.lng = some (.num b))
    (h1 : ¬(a < -90 ∨ 90 < a)) (h2 : ¬(b < -180 ∨ 180 < b)) :
    NearbyReply d db q r ↔
      ((∃ res, IsSearchResult d db (routeSearchParams q a b) res ∧
          r = .okReply res res.length) ∨
        (searchRejected (routeSearchParams q a b) ∧ r = .serverError "Search failed")) := by
  simp only [NearbyReply, hla, hlg]
  rw [if_neg h1, if_neg h2]

/-- A query with an in-range centre and `radius=-5`. -/
def qNegRadius : SearchQuery :=
  { lat := some (.num 51), lng := some (.num 0), radius := some (-5), types := none,
    wheelchairAccessible := none, limit := none, offset := none }

/-- A query with an in-range centre and a radius of a billion metres. -/
def qHugeRadius : SearchQuery := { qNegRadius with radius := some 1000000000 }

/-- C6, counterexample.  The claim says the entry point validates and clamps
the radius (positive, capped) and the pagination bounds, rejecting violations
with `InvalidRadius`/`InvalidPagination`.  The handler does neither: with
`radius = -5` it replies with a 200 success (the store simply matches
nothing, although both stored facilities would match the default radius), and
with a 10⁹-metre radius it replies 200 returning every row — no rejection, no
ceiling. -/
theorem c6_no_radius_validation_counterexample :
    NearbyReply dZero dbAB qNegRadius (.okReply [] 0) ∧
      rowMatches dZero pDefault rowA = true ∧
      NearbyReply dZero dbAB qHugeRadius (.okReply [rowA, rowB] 2) := by
  refine ⟨?_, by decide, ?_⟩
  · rw [NearbyReply_in_range dZero dbAB qNegRadius 51 0 _ (by decide) (by decide)
      (by decide) (by decide)]
    left
    refine ⟨[], ⟨by decide, by decide, [], ?_, by decide, by decide⟩, rfl⟩
    have h : matchingRows dZero dbAB (routeSearchParams qNegRadius 51 0) = [] := by decide
    rw [h]
  · rw [NearbyReply_in_range dZero dbAB qHugeRadius 51 0 _ (by decide) (by decide)
      (by decide) (by decide)]
    left
    refine ⟨[rowA, rowB], ⟨by decide, by decide, [rowA, rowB], ?_, by decide, by decide⟩, rfl⟩
    have h : matchingRows dZero dbAB (routeSearchParams qHugeRadius 51 0) = [rowA, rowB] := by
      decide
    rw [h]

/-- C6, amended.  The handler validates only the centre: for any in-range
`lat`/`lng`, whatever radius, type, wheelchair, limit and offset values the
caller supplied are passed to the store unchecked, and every store answer
surfaces as a success reply.  No `InvalidRadius` or `InvalidPagination`
rejection exists in the code. -/
theorem c6_passthrough_amended (d : FacilityRow → ℚ) (db : Store) (q : SearchQuery)
    (a b : ℚ) (res : List FacilityRow)
    (hla : q.lat = some (.num a)) (hlg : q.lng = some (.num b))
    (h1 : -90 ≤ a) (h2 : a ≤ 90) (h3 : -180 ≤ b) (h4 : b ≤ 180)
    (hres : IsSearchResult d db (routeSearchParams q a b) res) :
    NearbyReply d db q (.okReply res res.length) := by
  rw [NearbyReply_in_range d db q a b _ hla hlg (by push_neg; exact ⟨h1, h2⟩)
    (by push_neg; exact ⟨h3, h4⟩)]
  exact Or.inl ⟨res, hres, rfl⟩

/-- A query with an in-range centre and `radius=7`. -/
def qSmallRadius : SearchQuery := { qNegRadius with radius := some 7 }

/-- C6, witness: the amended theorem applied at `radius=7` over the two-row
store. -/
theorem c6_passthrough_amended_witness :
    NearbyReply dZero dbAB qSmallRadius (.okReply [rowA, rowB] 2) := by
  have h2 : ([rowA, rowB] : List FacilityRow).length = 2 := by decide
  rw [show (2 : ℕ) = ([rowA, rowB] : List FacilityRow).length from h2.symm]
  refine c6_passthrough_amended dZero dbAB qSmallRadius 51 0 [rowA, rowB] (by decide)
    (by decide) (by norm_num) (by norm_num) (by norm_num) (by norm_num) ?_
  refine ⟨by decide, by decide, [rowA, rowB], ?_, by decide, by decide⟩
  have h : matchingRows dZero dbAB (routeSearchParams qSmallRadius 51 0) = [rowA, rowB] := by
    decide
  rw [h]

/-! ## The global rate gate (`rateLimitedRequest`, `osmService.ts` lines 6–27)

`lastRequestTime` is module-global mutable state, initially `0`.  A call at
time `now` runs lines 10–15 synchronously: it reads `lastRequestTime`; if
`now - lastRequestTime < rateLimitMs` it awaits a `setTimeout` of
`rateLimitMs - (now - lastRequestTime)` milliseconds — waking exactly at
`lastRequestTime + rateLimitMs` — otherwise it continues without suspending.
On resuming (line 17) it unconditionally sets `lastRequestTime := Date.now()`
and issues the `axios.post` (the "fired" request).

Because the `await` at line 14 is the only suspension point, a call either
runs start-to-fire atomically (no sleep) or splits into two atomic segments —
the synchronous prefix at its arrival time and the wake at its precomputed
deadline — between which other calls may run.  The model is a small-step
relation over that event structure; events carry their wall-clock time and
must occur in non-decreasing time order. -/

namespace RateGate

/-- Value of `config.osm.rateLimitMs` (`config.ts` line 20): max 2 requests/second. -/
def rateLimitMs : ℕ := 500

/-- The lifecycle of one `rateLimitedRequest` call. -/
inductive Phase
  /-- invoked at time `arrival`; synchronous prefix not yet run. -/
  | idle (arrival : ℕ)
  /-- prefix ran at `start`; awaiting `setTimeout` until `wake`. -/
  | sleeping (start wake : ℕ)
  /-- set `lastRequestTime` and issued `axios.post` at `fire`. -/
  | fired (start fire : ℕ)
deriving DecidableEq, Repr

structure GateState where
  /-- wall clock of the latest event. -/
  now : ℕ
  /-- Models `lastRequestTime`. -/
  last : ℕ
  calls : List Phase
deriving DecidableEq, Repr

/-- An event: the synchronous prefix of call `i` (at its arrival time), or
the timer wake-up of a sleeping call `i` (at its deadline). -/
inductive Ev
  | start (i : ℕ)
  | wake (i : ℕ)
deriving DecidableEq, Repr

def step (s : GateState) : Ev → Option GateState
  | .start i =>
    match s.calls[i]? with
    | some (.idle a) =>
      if s.now ≤ a then
        if s.last + rateLimitMs ≤ a then
          some { now := a, last := a, calls := s.calls.set i (.fired a a) }
        else
          some { now := a, last := s.last,
                 calls := s.calls.set i (.sleeping a (s.last + rateLimitMs)) }
      else none
    | _ => none
  | .wake i =>
    match s.calls[i]? with
    | some (.sleeping st w) =>
      if s.now ≤ w then
        some { now := w, last := w, calls := s.calls.set i (.fired st w) }
      else none
    | _ => none

def run (s : GateState) : List Ev → Option GateState
  | [] => some s
  | e :: es =>
    match step s e with
    | some s2 => run s2 es
    | none => none

/-- The module's initial state: `lastRequestTime = 0`, clock at `0`, each
call pending at its arrival time. -/
def mkInit (arrivals : List ℕ) : GateState :=
  { now := 0, last := 0, calls := arrivals.map .idle }

/-- Per-call invariant: starts lie in the past, wakes strictly after their
start, fires at or after their start and never after `lastRequestTime`. -/
def PhaseInv (s : GateState) : Phase → Prop
  | .idle _ => True
  | .sleeping st w => st ≤ s.now ∧ st < w
  | .fired st f => st ≤ f ∧ f ≤ s.last

/-- Pairwise gap invariant: a call that started strictly after some fire
wakes (and hence fires) at least `rateLimitMs` after that fire. -/
def PairInv : Phase → Phase → Prop
  | .fired _ fi, .sleeping stj wj => fi < stj → fi + rateLimitMs ≤ wj
  | .fired _ fi, .fired stj fj => fi < stj → fi + rateLimitMs ≤ fj
  | _, _ => True

def Inv (s : GateState) : Prop :=
  s.last ≤ s.now ∧
    (∀ (i : ℕ) (c : Phase), s.calls[i]? = some c → PhaseInv s c) ∧
    (∀ (i j : ℕ) (ci cj : Phase),
      s.calls[i]? = some ci → s.calls[j]? = some cj → PairInv ci cj)

theorem step_inv (s s' : GateState) (e : Ev) (hs : Inv s) (h : step s e = some s') :
    Inv s' := by
  obtain ⟨hln, hphase, hpair⟩ := hs
  cases e with
  | start i =>
    cases hc : s.calls[i]? with
    | none => simp [step, hc] at h
    | some c =>
      cases c with
      | sleeping st w => simp [step, hc] at h
      | fired st f => simp [step, hc] at h
      | idle a =>
        simp only [step, hc] at h
        have hil : i < s.calls.length := (List.getElem?_eq_some.1 hc).1
        split at h
        case isFalse => exact absurd h (by simp)
        case isTrue hna =>
          split at h
          case isTrue hgap =>
            -- no sleep: fires immediately at `a`
            rw [Option.some_inj] at h
            subst h
            refine ⟨le_refl a, ?_, ?_⟩
            · intro j c hj
              rcases eq_or_ne i j with rfl | hne
              · rw [List.getElem?_set_self hil] at hj
                cases hj
                exact ⟨le_refl a, le_refl a⟩
              · rw [List.getElem?_set_ne hne] at hj
                have := hphase j c hj
                cases c with
                | idle b => trivial
                | sleeping st w => exact ⟨this.1.trans hna, this.2⟩
                | fired st f =>
                  exact ⟨this.1, this.2.trans ((Nat.le_add_right _ _).trans hgap)⟩
            · intro j k cj ck hj hk
              rcases eq_or_ne i j with rfl | hnej <;> rcases eq_or_ne i k with rfl | hnek
              · rw [List.getElem?_set_self hil] at hj hk
                cases hj; cases hk
                intro hlt; omega
              · rw [List.getElem?_set_self hil] at hj
                rw [List.getElem?_set_ne hnek] at hk
                cases hj
                have hpk := hphase k ck hk
                cases ck with
                | idle b => trivial
                | sleeping st w => intro hlt; simp only [PhaseInv] at hpk; omega
                | fired st f => intro hlt; simp only [PhaseInv] at hpk; omega
              · rw [List.getElem?_set_ne hnej] at hj
                rw [List.getElem?_set_self hil] at hk
                cases hk
                have hpj := hphase j cj hj
                cases cj with
                | idle b => trivial
                | sleeping st w => trivial
                | fired st f => intro hlt; simp only [PhaseInv] at hpj; omega
              · rw [List.getElem?_set_ne hnej] at hj
                rw [List.getElem?_set_ne hnek] at hk
                exact hpair j k cj ck hj hk
          case isFalse hgap =>
            -- sleeps until `s.last + rateLimitMs`
            rw [Option.some_inj] at h
            subst h
            refine ⟨hln.trans hna, ?_, ?_⟩
            · intro j c hj
              rcases eq_or_ne i j with rfl | hne
              · rw [List.getElem?_set_self hil] at hj
                cases hj
                exact ⟨le_refl a, by omega⟩
              · rw [List.getElem?_set_ne hne] at hj
                have := hphase j c hj
                cases c with
                | idle b => trivial
                | sleeping st w => exact ⟨this.1.trans hna, this.2⟩
                | fired st f => exact this
            · intro j k cj ck hj hk
              rcases eq_or_ne i j with rfl | hnej <;> rcases eq_or_ne i k with rfl | hnek
              · rw [List.getElem?_set_self hil] at hj hk
                cases hj; cases hk
                trivial
              · rw [List.getElem?_set_self hil] at hj
                rw [List.getElem?_set_ne hnek] at hk
                cases hj
                cases ck <;> trivial
              · rw [List.getElem?_set_ne hnej] at hj
                rw [List.getElem?_set_self hil] at hk
                cases hk
                have hpj := hphase j cj hj
                cases cj with
                | idle b => trivial
                | sleeping st w => trivial
                | fired st f => intro hlt; simp only [PhaseInv] at hpj; omega
              · rw [List.getElem?_set_ne hnej] at hj
                rw [List.getElem?_set_ne hnek] at hk
                exact hpair j k cj ck hj hk
  | wake i =>
    cases hc : s.calls[i]? with
    | none => simp [step, hc] at h
    | some c =>
      cases c with
      | idle a => simp [step, hc] at h
      | fired st f => simp [step, hc] at h
      | sleeping st w =>
        simp only [step, hc] at h
        have hil : i < s.calls.length := (List.getElem?_eq_some.1 hc).1
        have hpi := hphase i (.sleeping st w) hc
        simp only [PhaseInv] at hpi
        split at h
        case isFalse => exact absurd h (by simp)
        case isTrue hnw =>
          rw [Option.some_inj] at h
          subst h
          refine ⟨le_refl w, ?_, ?_⟩
          · intro j c hj
            rcases eq_or_ne i j with rfl | hne
            · rw [List.getElem?_set_self hil] at hj
              cases hj
              exact ⟨Nat.le_of_lt hpi.2, le_refl w⟩
            · rw [List.getElem?_set_ne hne] at hj
              have := hphase j c hj
              cases c with
              | idle b => trivial
              | sleeping st' w' => exact ⟨this.1.trans hnw, this.2⟩
              | fired st' f' => exact ⟨this.1, this.2.trans (hln.trans hnw)⟩
          · intro j k cj ck hj hk
            rcases eq_or_ne i j with rfl | hnej <;> rcases eq_or_ne i k with rfl | hnek
            · rw [List.getElem?_set_self hil] at hj hk
              cases hj; cases hk
              intro hlt; omega
            · rw [List.getElem?_set_self hil] at hj
              rw [List.getElem?_set_ne hnek] at hk
              cases hj
              have hpk := hphase k ck hk
              cases ck with
              | idle b => trivial
              | sleeping st' w' => intro hlt; simp only [PhaseInv] at hpk; omega
              | fired st' f' => intro hlt; simp only [PhaseInv] at hpk; omega
            · rw [List.getElem?_set_ne hnej] at hj
              rw [List.getElem?_set_self hil] at hk
              cases hk
              have hpr := hpair j i cj (.sleeping st w) hj hc
              cases cj with
              | idle b => trivial
              | sleeping st' w' => trivial
              | fired st' f' => exact hpr
            · rw [List.getElem?_set_ne hnej] at hj
              rw [List.getElem?_set_ne hnek] at hk
              exact hpair j k cj ck hj hk

theorem run_inv (s s' : GateState) (evs : List Ev) (hs : Inv s)
    (h : run s evs = some s') : Inv s' := by
  induction evs generalizing s with
  | nil => rw [run, Option.some_inj] at h; subst h; exact hs
  | cons e es ih =>
    rw [run] at h
    cases hstep : step s e with
    | none => rw [hstep] at h; exact absurd h (by simp)
    | some s2 =>
      rw [hstep] at h
      exact ih s2 (step_inv s s2 e hs hstep) h

theorem mkInit_inv (arrivals : List ℕ) : Inv (mkInit arrivals) := by
  refine ⟨le_refl 0, ?_, ?_⟩
  · intro i c hc
    rw [mkInit, List.getElem?_map] at hc
    obtain ⟨a, -, rfl⟩ := Option.map_eq_some'.1 hc
    trivial
  · intro i j ci cj hi hj
    rw [mkInit, List.getElem?_map] at hi hj
    obtain ⟨a, -, rfl⟩ := Option.map_eq_some'.1 hi
    trivial

/-! ### C9: the inter-request interval -/

/-- The race schedule: `lastRequestTime` fired last at `1000` (call 0); calls
1 and 2 arrive at `1100` and `1200` while nothing else is pending, each reads
the same `lastRequestTime = 1000` before either has written it back, so both
compute a wake-up of `1500` and fire together. -/
def raceInit : GateState := mkInit [1000, 1100, 1200]

def raceEvs : List Ev := [.start 0, .start 1, .start 2, .wake 1, .wake 2]

/-- C9, counterexample.  The claim says that between every pair of
consecutive requests issued through the gate at least
`rateLimitMs = 500` ms elapses.  In the valid interleaving `raceEvs` —
call 2's synchronous prefix runs while call 1 is suspended in its
`setTimeout` — calls 1 and 2 both fire at time `1500`: two consecutive
requests separated by `0` ms. -/
theorem c9_concurrent_race_counterexample :
    (run raceInit raceEvs).map (fun s => (s.calls[1]?, s.calls[2]?)) =
        some (some (.fired 1100 1500), some (.fired 1200 1500)) ∧
      1500 - 1500 < rateLimitMs := by
  constructor
  · decide
  · decide

/-- C9, amended.  For non-overlapping use the claim holds: in every reachable
state, if call `j`'s synchronous prefix ran strictly after call `i` fired
(so the calls do not race inside the gate), then call `j` fires at least
`rateLimitMs` after call `i` — a late arrival proceeds immediately, an early
one is held until `lastRequestTime + rateLimitMs`.  Only simultaneous
overlapping callers (the counterexample) can defeat the gate. -/
theorem c9_sequential_gap_amended (arrivals : List ℕ) (evs : List Ev)
    (s' : GateState) (i j sti fi stj fj : ℕ)
    (hrun : run (mkInit arrivals) evs = some s')
    (hi : s'.calls[i]? = some (.fired sti fi))
    (hj : s'.calls[j]? = some (.fired stj fj))
    (hseq : fi < stj) :
    fi + rateLimitMs ≤ fj := by
  obtain ⟨-, -, hpair⟩ := run_inv (mkInit arrivals) s' evs (mkInit_inv arrivals) hrun
  have hp := hpair i j _ _ hi hj
  simp only [PairInv] at hp
  exact hp hseq

/-- The sequential schedule behind the witness: call 1 arrives at `1600`,
after call 0 fired at `1000`. -/
def seqFinal : GateState :=
  { now := 1600, last := 1600, calls := [.fired 1000 1000, .fired 1600 1600] }

/-- C9, witness: the amended theorem applied to the sequential two-call run,
yielding the 500 ms gap `1000 + rateLimitMs ≤ 1600`. -/
theorem c9_sequential_gap_amended_witness : 1000 + rateLimitMs ≤ 1600 := by
  refine c9_sequential_gap_amended [1000, 1600] [.start 0, .start 1] seqFinal
    0 1 1000 1000 1600 1600 ?_ ?_ ?_ ?_
  · decide
  · decide
  · decide
  · decide

end RateGate

end AccessUnlocked
